import Mathlib

/-!
# Verification of the weather-service core logic

A shallow embedding, in Lean 4, of the core logic of the `weather-service`
repository (Django/Python), together with theorems settling the frozen claims
about its natural-language specification.

Embedded components (source file in parentheses):

* Python string normalization `city.strip().title()` and `city.lower()`
  (`apps/weather/usecases.py`, `apps/weather/repositories.py`), modelled at the
  Unicode-codepoint level for ASCII and the Latin-1 letter block;
* `OpenWeatherMapService.get_weather` / `_parse_weather_data`
  (`apps/weather/services.py`), with the single exception type
  `WeatherServiceException` represented by the distinct message families it
  carries (one constructor per family);
* `RedisWeatherCacheRepository` over a TTL key-value store
  (`apps/weather/repositories.py`), with injected read/write failures
  modelling the `try/except` blocks;
* `WeatherQuery` persistence, `cleanup_old_queries` and `get_history`
  (`apps/weather/models.py`, `apps/weather/repositories.py`);
* `GetWeatherUseCase.execute`, `_save_to_history`,
  `GetWeatherHistoryUseCase.execute` (`apps/weather/usecases.py`);
* the history view's `limit` handling (`apps/weather/views.py`);
* `RateLimitMiddleware` (`apps/core/middleware.py`).

Time is modelled as a natural number of seconds; numeric weather payload
values (temperature, pressure, wind speed) are modelled as integers since no
claim computes with them, only compares them for identity.
-/

namespace WeatherService

/-! ## Python string semantics (codepoint level)

`str.strip()`, `str.title()` and `str.lower()` are embedded as functions on
lists of Unicode codepoints.  The case table covers ASCII letters and the
Latin-1 letter block U+00C0–U+00FE (excluding the uncased `×` U+00D7 and
`÷` U+00F7, and excluding `ß` U+00DF, whose Python uppercase is the
two-character string `SS`; `ß` does not occur in any claim).  Codepoints
outside the table are left unchanged, as Python does for uncased characters. -/

/-- Python `str.lower()` on one codepoint (ASCII + Latin-1 letters). -/
def lowerCode (n : Nat) : Nat :=
  if 65 ≤ n ∧ n ≤ 90 then n + 32
  else if (192 ≤ n ∧ n ≤ 214) ∨ (216 ≤ n ∧ n ≤ 222) then n + 32
  else n

/-- Python `str.upper()` on one codepoint (ASCII + Latin-1 letters). -/
def upperCode (n : Nat) : Nat :=
  if 97 ≤ n ∧ n ≤ 122 then n - 32
  else if (224 ≤ n ∧ n ≤ 246) ∨ (248 ≤ n ∧ n ≤ 254) then n - 32
  else n

/-- Whether a codepoint is cased (upper or lower case letter of the table). -/
def isCasedCode (n : Nat) : Bool :=
  decide ((65 ≤ n ∧ n ≤ 90) ∨ (97 ≤ n ∧ n ≤ 122) ∨
    (192 ≤ n ∧ n ≤ 214) ∨ (216 ≤ n ∧ n ≤ 222) ∨
    (224 ≤ n ∧ n ≤ 246) ∨ (248 ≤ n ∧ n ≤ 254))

/-- Whitespace codepoints stripped by Python `str.strip()`
(ASCII whitespace, the C1 separators, NEL and NBSP). -/
def isSpaceCode (n : Nat) : Bool :=
  decide ((9 ≤ n ∧ n ≤ 13) ∨ (28 ≤ n ∧ n ≤ 32) ∨ n = 133 ∨ n = 160)

/-- One character of Python `str.title()`: a cased character is uppercased
when the previous character was uncased and lowercased otherwise. -/
def titleChar (prevCased : Bool) (n : Nat) : Nat :=
  if isCasedCode n then (if prevCased then lowerCode n else upperCode n) else n

/-- Python `str.title()` as a stateful map: the state records whether the
previous character was cased. -/
def titleMap (prevCased : Bool) : List Nat → List Nat
  | [] => []
  | n :: rest => titleChar prevCased n :: titleMap (isCasedCode n) rest

/-- Python `str.title()` over a list of codepoints. -/
def titleCodes (l : List Nat) : List Nat := titleMap false l

/-- Python `str.strip()` over a list of codepoints: drop whitespace from
both ends. -/
def stripCodes (l : List Nat) : List Nat :=
  ((l.dropWhile isSpaceCode).reverse.dropWhile isSpaceCode).reverse

/-- Codepoints of a Lean string. -/
def toCodes (s : String) : List Nat := s.data.map Char.toNat

/-- String from a list of codepoints. -/
def ofCodes (l : List Nat) : String := ⟨l.map Char.ofNat⟩

/-- `city.strip().title()` — the normalization applied to every inbound city
name by `GetWeatherUseCase.execute`, `GetWeatherHistoryUseCase.execute`,
`InvalidateCacheUseCase.execute` and the views. -/
def normalizeCity (s : String) : String := ofCodes (titleCodes (stripCodes (toCodes s)))

/-- The full normalization, at the codepoint level. -/
def normCodes (l : List Nat) : List Nat := titleCodes (stripCodes l)

/-- Whether the option holds a whitespace codepoint. -/
def optIsSpace (o : Option Nat) : Bool := (o.map isSpaceCode).getD false

/-- Python `str.lower()` over a whole string. -/
def lowerString (s : String) : String := ofCodes ((toCodes s).map lowerCode)

/-- `RedisWeatherCacheRepository._get_cache_key`:
the cache key for a city is the prefix `weather_cache:` followed by
`city.lower()`. -/
def cacheKeyOf (city : String) : String := "weather_cache:" ++ lowerString city

/-! ## Weather data and the provider (`apps/weather/services.py`) -/

/-- The normalized weather record produced by
`OpenWeatherMapService._parse_weather_data` (and by the mock provider):
the Python dict with keys `city`, `country`, `temperature`, `description`,
`humidity`, `pressure`, `wind_speed`, `provider`.  The opaque `raw_data`
payload is omitted: no modelled consumer reads it. -/
structure WeatherData where
  city : String
  country : String
  temperature : Int
  description : String
  humidity : Option Int
  pressure : Option Int
  windSpeed : Option Int
  provider : String
  deriving Repr, DecidableEq

/-- The distinct failure families of `WeatherServiceException` as raised by
`OpenWeatherMapService.get_weather`.  The Python code uses a single exception
class whose message distinguishes the cases; each pairwise-distinct message
family is one constructor. -/
inductive ErrorKind where
  /-- `"OpenWeatherMap API key not configured"` -/
  | notConfigured
  /-- `"Cidade ... não encontrada"` (upstream 404) -/
  | notFound
  /-- `"Chave da API inválida"` (upstream 401) -/
  | unauthorized
  /-- `"Erro na API: <code>"` (other non-2xx status) -/
  | upstreamError (code : Nat)
  /-- `"Erro de conexão: ..."` (`requests.RequestException`) -/
  | connectionError
  /-- `"Erro ao processar dados da API: ..."` (`KeyError` while parsing) -/
  | parseError
  deriving Repr, DecidableEq

/-- The fields of the upstream OpenWeatherMap JSON body that
`_parse_weather_data` reads, in the evaluation order of its dict literal.
`none` models a missing key (Python `KeyError`).  `weather` is the
`"weather"` array with each entry reduced to its optional `"description"`
string: a missing `"weather"` key raises `KeyError`; an *empty* array makes
`data["weather"][0]` raise `IndexError`, which the surrounding
`except KeyError` does NOT catch; a first entry without `"description"`
raises `KeyError` again.  `wind` is read with
`.get("wind", {}).get("speed", 0)` and never raises. -/
structure OwmPayload where
  name : Option String
  sysCountry : Option String
  mainTemp : Option Int
  weather : Option (List (Option String))
  mainHumidity : Option Int
  mainPressure : Option Int
  windSpeed : Option Int
  deriving Repr, DecidableEq

/-- Outcome of the upstream HTTP request made by `requests.get`:
either a response with a status code and body, or a
`requests.RequestException` (connection error / timeout). -/
inductive HttpOutcome where
  | response (status : Nat) (body : OwmPayload)
  | requestException
  deriving Repr, DecidableEq

/-- Title-cased description, as in
`data["weather"][0]["description"].title()`. -/
def titleString (s : String) : String := ofCodes (titleCodes (toCodes s))

/-- How one `OpenWeatherMapService.get_weather` call fails: either with a
raised `WeatherServiceException` carrying one of the six domain message
families, or with the `IndexError` that `data["weather"][0]` raises on an
empty `weather` array and that no handler inside the service catches
(it is neither a `KeyError` nor a `requests.RequestException`). -/
inductive FetchFailure where
  | domainError (e : ErrorKind)
  | indexError
  deriving Repr, DecidableEq

/-- `OpenWeatherMapService._parse_weather_data`: the dict fields are
evaluated in order `name`, `sys.country`, `main.temp`,
`weather[0].description`, `main.humidity`, `main.pressure`; the first
missing key raises `KeyError`, turned into the parse-error message family —
except that `weather[0]` on an empty array raises `IndexError`, which the
`except KeyError` clause does not catch and which therefore escapes the
service.  `wind.speed` defaults to `0`. -/
def parseWeatherData (data : OwmPayload) : Except FetchFailure WeatherData :=
  match data.name with
  | none => .error (.domainError .parseError)
  | some name =>
  match data.sysCountry with
  | none => .error (.domainError .parseError)
  | some country =>
  match data.mainTemp with
  | none => .error (.domainError .parseError)
  | some temp =>
  match data.weather with
  | none => .error (.domainError .parseError)
  | some [] => .error .indexError
  | some (entry :: _) =>
  match entry with
  | none => .error (.domainError .parseError)
  | some desc =>
  match data.mainHumidity with
  | none => .error (.domainError .parseError)
  | some hum =>
  match data.mainPressure with
  | none => .error (.domainError .parseError)
  | some pres =>
      .ok { city := name, country := country, temperature := temp,
            description := titleString desc, humidity := some hum,
            pressure := some pres, windSpeed := some (data.windSpeed.getD 0),
            provider := "openweathermap" }

/-- `OpenWeatherMapService.get_weather`: fail if the API key is falsy
(empty); otherwise dispatch on the upstream outcome — 200 parses the body,
404 is not-found, 401 is unauthorized, any other status is an upstream
error carrying the code, and a `requests.RequestException` is a connection
error.  The `IndexError` escaping `_parse_weather_data` on a 200 body with
an empty `weather` array also escapes here. -/
def owmGetWeather (apiKey : String) (outcome : HttpOutcome) :
    Except FetchFailure WeatherData :=
  if apiKey = "" then .error (.domainError .notConfigured)
  else
    match outcome with
    | .requestException => .error (.domainError .connectionError)
    | .response status body =>
        if status = 200 then parseWeatherData body
        else if status = 404 then .error (.domainError .notFound)
        else if status = 401 then .error (.domainError .unauthorized)
        else .error (.domainError (.upstreamError status))

/-- What `GetWeatherUseCase.execute`'s caller sees when the provider call
fails: `except WeatherServiceException: raise` re-raises a domain kind
unchanged, while `except Exception` wraps any other exception (such as the
escaped `IndexError`) into the distinct generic message family
`"Erro interno do serviço: ..."`, which is none of the six domain kinds. -/
inductive CallerError where
  | domainError (e : ErrorKind)
  | internalError
  deriving Repr, DecidableEq

/-- `GetWeatherUseCase.execute` on a cache miss, run against the real
OpenWeatherMap-backed service: the fetch outcome filtered through the use
case's two exception handlers (usecases.py lines 150–155). -/
def executeMissOwm (apiKey : String) (outcome : HttpOutcome) :
    Except CallerError WeatherData :=
  match owmGetWeather apiKey outcome with
  | .ok d => .ok d
  | .error (.domainError e) => .error (.domainError e)
  | .error .indexError => .error .internalError

/-- The canned snapshot returned by `MockWeatherService.get_weather` on its
success path (used here as a deterministic provider for scenario runs). -/
def mockWeatherData (city : String) : WeatherData :=
  { city := titleString city, country := "BR", temperature := 25,
    description := "Ensolarado", humidity := some 60, pressure := some 1013,
    windSpeed := some 5, provider := "mock" }

/-! ## TTL cache (`apps/weather/repositories.py`, Redis/Django cache) -/

/-- One live cache entry: the stored weather dict (which
`cache_weather` extends with a `cached_at` stamp before serializing) and the
absolute expiry time `set`-time + TTL. -/
structure CacheEntry where
  data : WeatherData
  cachedAt : Nat
  expiresAt : Nat
  deriving Repr, DecidableEq

/-- The backing key-value store with per-entry expiry (Django `cache` over
Redis).  At most one entry per key is kept (`set` replaces). -/
abbrev CacheStore := List (String × CacheEntry)

/-- `cache.get(key)`: the entry is visible while the current time is before
its expiry. -/
def cacheGet (store : CacheStore) (t : Nat) (key : String) : Option CacheEntry :=
  match store.find? (fun e => e.1 == key) with
  | some (_, e) => if t < e.expiresAt then some e else none
  | none => none

/-- `cache.set(key, value, ttl)`: last write wins, expiry is now + TTL. -/
def cacheSet (store : CacheStore) (t : Nat) (key : String) (d : WeatherData)
    (ttl : Nat) : CacheStore :=
  (key, ⟨d, t, t + ttl⟩) :: store.filter (fun e => e.1 != key)

/-- `cache.delete(key)` (used by `invalidate_cache`). -/
def cacheDelete (store : CacheStore) (key : String) : CacheStore :=
  store.filter (fun e => e.1 != key)

/-- `RedisWeatherCacheRepository.get_cached_weather`: any storage exception
is caught and turned into a miss (`return None`); the failure injection flag
models the `except` branch being taken. -/
def getCachedWeather (readFails : Bool) (store : CacheStore) (t : Nat)
    (city : String) : Option CacheEntry :=
  if readFails then none else cacheGet store t (cacheKeyOf city)

/-- `RedisWeatherCacheRepository.cache_weather`: any storage exception is
caught and logged, leaving the store unchanged. -/
def cacheWeatherWrite (writeFails : Bool) (store : CacheStore) (t : Nat)
    (city : String) (d : WeatherData) (ttl : Nat) : CacheStore :=
  if writeFails then store else cacheSet store t (cacheKeyOf city) d ttl

/-! ## Query history (`apps/weather/models.py`, `repositories.py`) -/

/-- One `WeatherQuery` database row. -/
structure WeatherQueryRow where
  id : Nat
  city : String
  ipAddress : String
  temperature : Int
  description : String
  humidity : Option Int
  pressure : Option Int
  windSpeed : Option Int
  country : String
  createdAt : Nat
  deriving Repr, DecidableEq

/-- The `weather_weatherquery` table: its rows (most recent insertion first)
and the next auto-increment primary key. -/
structure HistoryTable where
  rows : List WeatherQueryRow
  nextId : Nat
  deriving Repr, DecidableEq

/-- The empty table with ids starting at 1. -/
def HistoryTable.empty : HistoryTable := ⟨[], 1⟩

/-- `DjangoWeatherQueryRepository.save_query`:
`WeatherQuery.objects.create(...)` with `created_at` defaulting to now. -/
def saveQuery (tbl : HistoryTable) (t : Nat) (city ip : String)
    (d : WeatherData) : HistoryTable :=
  { rows := { id := tbl.nextId, city := city, ipAddress := ip,
              temperature := d.temperature, description := d.description,
              humidity := d.humidity, pressure := d.pressure,
              windSpeed := d.windSpeed, country := d.country,
              createdAt := t } :: tbl.rows,
    nextId := tbl.nextId + 1 }

/-- The row order produced by `order_by("-created_at")`: newer first; rows
with equal `created_at` are returned with the higher (later-assigned)
primary key first, modelling the backend's tie order for a descending scan
over equal sort keys. -/
def RecencyOrder (a b : WeatherQueryRow) : Prop :=
  b.createdAt < a.createdAt ∨ (a.createdAt = b.createdAt ∧ b.id ≤ a.id)

instance : DecidableRel RecencyOrder := fun a b => by
  unfold RecencyOrder; infer_instance

instance : IsTotal WeatherQueryRow RecencyOrder := by
  constructor; intro a b; unfold RecencyOrder; omega

instance : IsTrans WeatherQueryRow RecencyOrder := by
  constructor; intro a b c; unfold RecencyOrder; omega

/-- `WeatherQuery.objects.filter(city=..., ip_address=...)`. -/
def filterKey (city ip : String) (l : List WeatherQueryRow) :
    List WeatherQueryRow :=
  l.filter (fun q => q.city == city && q.ipAddress == ip)

/-- `.order_by("-created_at")` on a row list. -/
def orderByRecency (l : List WeatherQueryRow) : List WeatherQueryRow :=
  l.insertionSort RecencyOrder

/-- `WeatherQuery.cleanup_old_queries`: filter the key, order newest first;
if more than `limit` rows match, delete (by id, from the whole table) all
but the first `limit` of the ordered rows. -/
def cleanupOldQueries (tbl : HistoryTable) (city ip : String) (limit : Nat) :
    HistoryTable :=
  let queries := orderByRecency (filterKey city ip tbl.rows)
  if limit < queries.length then
    let oldIds := (queries.drop limit).map (fun q => q.id)
    { tbl with rows := tbl.rows.filter (fun q => !(oldIds.contains q.id)) }
  else tbl

/-- `DjangoWeatherQueryRepository.get_history`: the `limit` newest rows for
the key, newest first. -/
def getHistoryRows (tbl : HistoryTable) (city ip : String) (limit : Nat) :
    List WeatherQueryRow :=
  (orderByRecency (filterKey city ip tbl.rows)).take limit

/-! ## The get-weather orchestrator (`apps/weather/usecases.py`) -/

/-- The shared external stores `GetWeatherUseCase.execute` acts on. -/
structure SystemState where
  cache : CacheStore
  history : HistoryTable
  deriving Repr, DecidableEq

/-- Which storage `try/except` branches fire during one call.  `false`
everywhere is the normal run. -/
structure FailureModel where
  cacheReadFails : Bool
  cacheWriteFails : Bool
  saveQueryFails : Bool
  cleanupFails : Bool
  deriving Repr, DecidableEq

/-- The failure-free run. -/
def noFailures : FailureModel := ⟨false, false, false, false⟩

/-- The dict returned by `GetWeatherUseCase.execute`: the weather fields,
the `cached_at` stamp the cache layer adds, and the `cached`/`timestamp`
metadata stamped per serving. -/
structure WeatherResult where
  data : WeatherData
  cachedAt : Nat
  cached : Bool
  timestamp : Nat
  deriving Repr, DecidableEq

deriving instance DecidableEq for Except

/-- The observable outcome of one `execute` call: the returned value or the
propagated exception, the post-call stores, and whether the external
provider was invoked. -/
structure ExecOutcome where
  result : Except ErrorKind WeatherResult
  state : SystemState
  providerCalled : Bool
  deriving Repr, DecidableEq

/-- `GetWeatherUseCase._save_to_history`: `save_query` then
`cleanup_old_queries(city, ip, limit=10)`, with any exception caught and
logged.  A `save_query` failure leaves the table unchanged and skips the
cleanup; a cleanup failure keeps the saved row. -/
def saveToHistory (fm : FailureModel) (tbl : HistoryTable) (t : Nat)
    (city ip : String) (d : WeatherData) : HistoryTable :=
  if fm.saveQueryFails then tbl
  else
    let tbl1 := saveQuery tbl t city ip d
    if fm.cleanupFails then tbl1 else cleanupOldQueries tbl1 city ip 10

/-- `ONE_MINUTE`, the TTL `execute` passes to `cache_weather`. -/
def ONE_MINUTE : Nat := 60

/-- `GetWeatherUseCase.execute`: normalize the city, try the cache; on a hit
return the cached dict restamped `cached=True`/now; on a miss call the
provider, write through to the cache with TTL `ONE_MINUTE`, append to
history and trim it to the last 10 for (city, ip), and return the fresh
dict stamped `cached=False`/now; a provider exception propagates
unchanged. -/
def executeGetWeather (provider : String → Except ErrorKind WeatherData)
    (fm : FailureModel) (t : Nat) (city ip : String) (st : SystemState) :
    ExecOutcome :=
  let city := normalizeCity city
  match getCachedWeather fm.cacheReadFails st.cache t city with
  | some entry =>
      { result := .ok { data := entry.data, cachedAt := entry.cachedAt,
                        cached := true, timestamp := t },
        state := st, providerCalled := false }
  | none =>
      match provider city with
      | .error e => { result := .error e, state := st, providerCalled := true }
      | .ok d =>
          { result := .ok { data := d, cachedAt := t, cached := false,
                            timestamp := t },
            state := { cache := cacheWeatherWrite fm.cacheWriteFails st.cache
                         t city d ONE_MINUTE,
                       history := saveToHistory fm st.history t city ip d },
            providerCalled := true }

/-! ## The get-history operation (`usecases.py`, `views.py`) -/

/-- The dict returned by `GetWeatherHistoryUseCase.execute`. -/
structure HistoryResult where
  city : String
  queries : List WeatherQueryRow
  total : Nat
  limit : Nat
  deriving Repr, DecidableEq

/-- `GetWeatherHistoryUseCase.execute`: normalize the city, read the
history, echo city and limit with the record count. -/
def executeGetHistory (tbl : HistoryTable) (city ip : String) (limit : Nat) :
    HistoryResult :=
  let city := normalizeCity city
  let qs := getHistoryRows tbl city ip limit
  { city := city, queries := qs, total := qs.length, limit := limit }

/-- The `limit` query parameter as the view sees it: absent, unparsable by
Python `int(...)`, or an integer value. -/
inductive LimitParam where
  | missing
  | invalid
  | value (n : Int)
  deriving Repr, DecidableEq

/-- `WeatherHistoryView.get`'s limit handling: default 10 when the
parameter is missing or unparsable; an out-of-range value (`< 1` or `> 50`)
is replaced by 10. -/
def effectiveLimit (p : LimitParam) : Int :=
  match p with
  | .missing => 10
  | .invalid => 10
  | .value n => if n < 1 ∨ 50 < n then 10 else n

/-- Modelled from the spec's words for comparison (`clamp limit to [1, 50],
defaulting to 10 on missing/invalid input`): genuine clamping to the nearest
bound for out-of-range values.  This is NOT the code's behavior; it exists
only to witness the difference. -/
def specClampLimit (p : LimitParam) : Int :=
  match p with
  | .missing => 10
  | .invalid => 10
  | .value n => min 50 (max 1 n)

/-! ## Rate limiting (`apps/core/middleware.py`) -/

/-- The Redis-backed counter store used by `RateLimitMiddleware`: per key a
count and an absolute expiry time. -/
abbrev RateLimitStore := List (String × Nat × Nat)

/-- `cache.get(key, 0)` on the counter store: an expired or absent counter
reads as 0. -/
def rlGet (s : RateLimitStore) (t : Nat) (key : String) : Nat :=
  match s.find? (fun e => e.1 == key) with
  | some (_, count, exp) => if t < exp then count else 0
  | none => 0

/-- `cache.set(key, v, window_seconds)`: replaces the counter and restarts
its expiry clock. -/
def rlSet (s : RateLimitStore) (key : String) (v : Nat) (exp : Nat) :
    RateLimitStore :=
  (key, v, exp) :: s.filter (fun e => e.1 != key)

/-- The counter key for a client identity. -/
def rateLimitKey (ip : String) : String := "rate_limit:" ++ ip

/-- `RateLimitMiddleware.is_rate_limited`. -/
def isRateLimited (limit : Nat) (s : RateLimitStore) (t : Nat) (ip : String) :
    Bool :=
  limit ≤ rlGet s t (rateLimitKey ip)

/-- `RateLimitMiddleware.record_request`: read the current count and store
count + 1 with a fresh `window_seconds` expiry. -/
def recordRequest (window : Nat) (s : RateLimitStore) (t : Nat) (ip : String) :
    RateLimitStore :=
  rlSet s (rateLimitKey ip) (rlGet s t (rateLimitKey ip) + 1) (t + window)

/-- One request attempt against the limiter (the middleware body once the
path checks have selected the weather endpoint): rejected when the counter
has reached the limit, otherwise recorded and admitted.  Returns
(admitted?, new store). -/
def rlAttempt (limit window : Nat) (ip : String) (s : RateLimitStore)
    (t : Nat) : Bool × RateLimitStore :=
  if isRateLimited limit s t ip then (false, s)
  else (true, recordRequest window s t ip)

/-- A sequence of attempts from one identity at the given times. -/
def runAttempts (limit window : Nat) (ip : String) (s : RateLimitStore) :
    List Nat → RateLimitStore
  | [] => s
  | t :: ts => runAttempts limit window ip (rlAttempt limit window ip s t).2 ts

/-- Python `str.startswith`, at the character level. -/
def strStartsWith (pre s : String) : Bool := pre.data.isPrefixOf s.data

/-- What `RateLimitMiddleware.__call__` did with a request. -/
inductive MiddlewareDecision where
  /-- forwarded without consulting or touching the limiter -/
  | passedThrough
  /-- counted and forwarded -/
  | admitted
  /-- answered 429 -/
  | rejected
  deriving Repr, DecidableEq

/-- `RateLimitMiddleware.__call__`: health/metrics paths and test mode skip
the limiter; only the weather-query path is limited; otherwise check, then
record. -/
def middlewareCall (limit window : Nat) (testing bddEnabled : Bool)
    (path ip : String) (t : Nat) (s : RateLimitStore) :
    MiddlewareDecision × RateLimitStore :=
  if path = "/health/" ∨ path = "/metrics" then (.passedThrough, s)
  else if testing ∧ ¬ bddEnabled then (.passedThrough, s)
  else if ¬ (path = "/api/v1/weather/" ∨
      strStartsWith "/api/v1/weather/?" path = true) then (.passedThrough, s)
  else if isRateLimited limit s t ip then (.rejected, s)
  else (.admitted, recordRequest window s t ip)

/-! ## Scenario definitions for the history-cap claim -/

/-- A provider that always succeeds with the canned snapshot (the mock
service's success path); used for scenario runs. -/
def scenarioProvider : String → Except ErrorKind WeatherData :=
  fun c => .ok (mockWeatherData c)

/-- `k` GetWeather calls for the same city and client against fresh stores,
one call every 61 seconds — one second past the 60-second cache TTL, so
every call is a genuine cache miss and reaches the provider. -/
def runFetches (city ip : String) : Nat → SystemState
  | 0 => { cache := [], history := HistoryTable.empty }
  | k + 1 => (executeGetWeather scenarioProvider noFailures (61 * k) city ip
      (runFetches city ip k)).state

/-- The history row created by the `j`-th scenario fetch (ids start at 1;
row `j` is created at time `61 * (j - 1)`). -/
def scenarioRow (city ip : String) (j : Nat) : WeatherQueryRow :=
  { id := j, city := normalizeCity city, ipAddress := ip,
    temperature := (mockWeatherData (normalizeCity city)).temperature,
    description := (mockWeatherData (normalizeCity city)).description,
    humidity := (mockWeatherData (normalizeCity city)).humidity,
    pressure := (mockWeatherData (normalizeCity city)).pressure,
    windSpeed := (mockWeatherData (normalizeCity city)).windSpeed,
    country := (mockWeatherData (normalizeCity city)).country,
    createdAt := 61 * (j - 1) }

/-- `[k, k-1, ..., k-n+1]`: the ids of the `n` most recent scenario rows
after `k` fetches, newest first. -/
def descIds : Nat → Nat → List Nat
  | _, 0 => []
  | k, n + 1 => k :: descIds (k - 1) n

/-! ## Lemmas: Python case functions -/

theorem lowerCode_lowerCode (n : Nat) : lowerCode (lowerCode n) = lowerCode n := by
  unfold lowerCode; split <;> split <;> (try split) <;> (try split) <;> omega

theorem upperCode_upperCode (n : Nat) : upperCode (upperCode n) = upperCode n := by
  unfold upperCode; split <;> split <;> (try split) <;> (try split) <;> omega

theorem isCased_lowerCode (n : Nat) : isCasedCode (lowerCode n) = isCasedCode n := by
  unfold isCasedCode lowerCode
  split <;> (try split) <;> rw [decide_eq_decide] <;> omega

theorem isCased_upperCode (n : Nat) : isCasedCode (upperCode n) = isCasedCode n := by
  unfold isCasedCode upperCode
  split <;> (try split) <;> rw [decide_eq_decide] <;> omega

theorem isSpace_lowerCode (n : Nat) : isSpaceCode (lowerCode n) = isSpaceCode n := by
  unfold isSpaceCode lowerCode
  split <;> (try split) <;> rw [decide_eq_decide] <;> omega

theorem isSpace_upperCode (n : Nat) : isSpaceCode (upperCode n) = isSpaceCode n := by
  unfold isSpaceCode upperCode
  split <;> (try split) <;> rw [decide_eq_decide] <;> omega

theorem isSpace_titleChar (b : Bool) (n : Nat) :
    isSpaceCode (titleChar b n) = isSpaceCode n := by
  unfold titleChar
  split
  · split
    · exact isSpace_lowerCode n
    · exact isSpace_upperCode n
  · rfl

theorem isCased_titleChar (b : Bool) (n : Nat) :
    isCasedCode (titleChar b n) = isCasedCode n := by
  unfold titleChar
  split
  · split
    · exact isCased_lowerCode n
    · exact isCased_upperCode n
  · rfl

theorem titleChar_titleChar (b : Bool) (n : Nat) :
    titleChar b (titleChar b n) = titleChar b n := by
  cases b with
  | true =>
    by_cases hc : isCasedCode n = true
    · simp [titleChar, hc, isCased_lowerCode, lowerCode_lowerCode]
    · simp only [Bool.not_eq_true] at hc
      simp [titleChar, hc]
  | false =>
    by_cases hc : isCasedCode n = true
    · simp [titleChar, hc, isCased_upperCode, upperCode_upperCode]
    · simp only [Bool.not_eq_true] at hc
      simp [titleChar, hc]

/-! ## Lemmas: `str.title()` -/

theorem titleMap_idem (l : List Nat) : ∀ b, titleMap b (titleMap b l) = titleMap b l := by
  induction l with
  | nil => intro b; rfl
  | cons n rest ih =>
    intro b
    simp only [titleMap, titleChar_titleChar, isCased_titleChar, ih]

theorem titleMap_head? (b : Bool) (l : List Nat) :
    (titleMap b l).head? = l.head?.map (titleChar b) := by
  cases l <;> rfl

theorem titleMap_getLast?_space (l : List Nat) :
    ∀ b, optIsSpace (titleMap b l).getLast? = optIsSpace l.getLast? := by
  induction l with
  | nil => intro b; rfl
  | cons n rest ih =>
    intro b
    cases rest with
    | nil => simp [titleMap, optIsSpace, isSpace_titleChar]
    | cons m rest2 =>
      have h1 : titleMap b (n :: m :: rest2)
          = titleChar b n :: titleMap (isCasedCode n) (m :: rest2) := rfl
      have h2 : titleMap (isCasedCode n) (m :: rest2)
          = titleChar (isCasedCode n) m :: titleMap (isCasedCode m) rest2 := rfl
      rw [h1, h2, List.getLast?_cons_cons, List.getLast?_cons_cons, ← h2]
      exact ih (isCasedCode n)

/-! ## Lemmas: `str.strip()` -/

theorem dropWhile_eq_self_of_head (p : Nat → Bool) (l : List Nat)
    (h2 : (l.head?.map p).getD false = false) : l.dropWhile p = l := by
  cases l with
  | nil => rfl
  | cons x xs =>
    simp only [List.head?_cons, Option.map_some', Option.getD_some] at h2
    simp [List.dropWhile_cons, h2]

theorem stripCodes_eq_self (l : List Nat)
    (hh : optIsSpace l.head? = false) (hl : optIsSpace l.getLast? = false) :
    stripCodes l = l := by
  unfold stripCodes
  have h1 : l.dropWhile isSpaceCode = l := by
    apply dropWhile_eq_self_of_head
    simpa [optIsSpace] using hh
  rw [h1]
  have h2 : l.reverse.dropWhile isSpaceCode = l.reverse := by
    apply dropWhile_eq_self_of_head
    simpa [optIsSpace, List.head?_reverse] using hl
  rw [h2, List.reverse_reverse]

theorem head?_dropWhile_space (l : List Nat) :
    optIsSpace (l.dropWhile isSpaceCode).head? = false := by
  induction l with
  | nil => rfl
  | cons x xs ih =>
    by_cases hx : isSpaceCode x = true
    · simpa [List.dropWhile_cons, hx] using ih
    · simp only [Bool.not_eq_true] at hx
      simp [List.dropWhile_cons, hx, optIsSpace]

theorem getLast?_dropWhile_space (l : List Nat)
    (hl : optIsSpace l.getLast? = false) :
    optIsSpace (l.dropWhile isSpaceCode).getLast? = false := by
  rcases (List.dropWhile_suffix (l := l) isSpaceCode) with ⟨pre, hpre⟩
  match h : l.dropWhile isSpaceCode with
  | [] => rfl
  | x :: xs =>
    rw [h] at hpre
    rw [← hpre, List.getLast?_append_of_ne_nil _ (List.cons_ne_nil x xs)] at hl
    exact hl

theorem stripCodes_head_space (l : List Nat) :
    optIsSpace (stripCodes l).head? = false := by
  unfold stripCodes
  rw [List.head?_reverse]
  apply getLast?_dropWhile_space
  rw [List.getLast?_reverse]
  exact head?_dropWhile_space l

theorem stripCodes_getLast_space (l : List Nat) :
    optIsSpace (stripCodes l).getLast? = false := by
  unfold stripCodes
  rw [List.getLast?_reverse]
  exact head?_dropWhile_space _

theorem stripCodes_titleCodes_stripCodes (l : List Nat) :
    stripCodes (titleCodes (stripCodes l)) = titleCodes (stripCodes l) := by
  apply stripCodes_eq_self
  · rw [titleCodes, titleMap_head?]
    match h : (stripCodes l).head? with
    | none => rfl
    | some x =>
      have hs := stripCodes_head_space l
      rw [h] at hs
      simp only [optIsSpace, Option.map_some', Option.getD_some] at hs ⊢
      rw [isSpace_titleChar]
      exact hs
  · rw [titleCodes, titleMap_getLast?_space]
    exact stripCodes_getLast_space l

theorem normCodes_idem (l : List Nat) : normCodes (normCodes l) = normCodes l := by
  unfold normCodes
  rw [stripCodes_titleCodes_stripCodes]
  exact titleMap_idem (stripCodes l) false

/-! ## Lemmas: codepoint validity and the string round trip -/

theorem toNat_ofNat_valid (n : Nat) (h : n.isValidChar) :
    (Char.ofNat n).toNat = n := by
  simp [Char.ofNat, h, Char.ofNatAux, Char.toNat, UInt32.toNat, UInt32.ofNat']

theorem toNat_valid (c : Char) : Nat.isValidChar c.toNat := by
  have hv := c.valid
  simpa [Char.toNat, UInt32.isValidChar] using hv

theorem toCodes_valid (s : String) : ∀ n ∈ toCodes s, n.isValidChar := by
  intro n hn
  unfold toCodes at hn
  rcases List.mem_map.mp hn with ⟨c, _, rfl⟩
  exact toNat_valid c

theorem toCodes_ofCodes (l : List Nat) (h : ∀ n ∈ l, n.isValidChar) :
    toCodes (ofCodes l) = l := by
  unfold toCodes ofCodes
  rw [List.map_map]
  have hcong : ∀ n ∈ l, (Char.toNat ∘ Char.ofNat) n = id n :=
    fun n hn => toNat_ofNat_valid n (h n hn)
  rw [List.map_congr_left hcong, List.map_id]

theorem lowerCode_valid (n : Nat) (h : n.isValidChar) :
    (lowerCode n).isValidChar := by
  unfold Nat.isValidChar at h ⊢
  unfold lowerCode
  split <;> (try split) <;> omega

theorem upperCode_valid (n : Nat) (h : n.isValidChar) :
    (upperCode n).isValidChar := by
  unfold Nat.isValidChar at h ⊢
  unfold upperCode
  split <;> (try split) <;> omega

theorem titleChar_valid (b : Bool) (n : Nat) (h : n.isValidChar) :
    (titleChar b n).isValidChar := by
  unfold titleChar
  split
  · split
    · exact lowerCode_valid n h
    · exact upperCode_valid n h
  · exact h

theorem titleMap_valid (l : List Nat) :
    ∀ b, (∀ n ∈ l, n.isValidChar) → ∀ m ∈ titleMap b l, m.isValidChar := by
  induction l with
  | nil => intro b _ m hm; cases hm
  | cons x xs ih =>
    intro b h m hm
    rcases List.mem_cons.mp hm with rfl | hm2
    · exact titleChar_valid b x (h x (List.mem_cons_self x xs))
    · exact ih (isCasedCode x) (fun n hn => h n (List.mem_cons_of_mem x hn)) m hm2

theorem stripCodes_subset (l : List Nat) (m : Nat) (hm : m ∈ stripCodes l) :
    m ∈ l := by
  unfold stripCodes at hm
  rw [List.mem_reverse] at hm
  have h1 := ((List.dropWhile_suffix (l := (l.dropWhile isSpaceCode).reverse)
    isSpaceCode).sublist).mem hm
  rw [List.mem_reverse] at h1
  exact ((List.dropWhile_suffix (l := l) isSpaceCode).sublist).mem h1

theorem normCodes_valid (l : List Nat) (h : ∀ n ∈ l, n.isValidChar) :
    ∀ m ∈ normCodes l, m.isValidChar := by
  intro m hm
  unfold normCodes titleCodes at hm
  exact titleMap_valid (stripCodes l) false
    (fun n hn => h n (stripCodes_subset l n hn)) m hm

theorem normalizeCity_idem (s : String) :
    normalizeCity (normalizeCity s) = normalizeCity s := by
  show ofCodes (normCodes (toCodes (ofCodes (normCodes (toCodes s)))))
      = ofCodes (normCodes (toCodes s))
  rw [toCodes_ofCodes _ (normCodes_valid _ (toCodes_valid s)), normCodes_idem]

/-! ## Lemmas: keyed stores -/

theorem find?_key_filter_ne {α : Type} (s : List (String × α)) (key key2 : String)
    (h : key2 ≠ key) :
    (s.filter (fun e => e.1 != key)).find? (fun e => e.1 == key2)
      = s.find? (fun e => e.1 == key2) := by
  induction s with
  | nil => rfl
  | cons x xs ih =>
    by_cases hx : x.1 = key
    · rw [List.filter_cons_of_neg (by simp [hx]),
        List.find?_cons_of_neg _ (by simp [hx, Ne.symm h]), ih]
    · rw [List.filter_cons_of_pos (by simp [hx])]
      by_cases hx2 : x.1 = key2
      · rw [List.find?_cons_of_pos _ (by simp [hx2]),
          List.find?_cons_of_pos _ (by simp [hx2])]
      · rw [List.find?_cons_of_neg _ (by simp [hx2]),
          List.find?_cons_of_neg _ (by simp [hx2]), ih]

theorem cacheGet_cacheSet_self (store : CacheStore) (t t2 : Nat) (key : String)
    (d : WeatherData) (ttl : Nat) :
    cacheGet (cacheSet store t key d ttl) t2 key
      = if t2 < t + ttl then some ⟨d, t, t + ttl⟩ else none := by
  unfold cacheGet cacheSet
  rw [List.find?_cons_of_pos _ (by simp)]

theorem rlGet_rlSet_self (s : RateLimitStore) (key : String) (v exp t2 : Nat) :
    rlGet (rlSet s key v exp) t2 key = if t2 < exp then v else 0 := by
  unfold rlGet rlSet
  rw [List.find?_cons_of_pos _ (by simp)]

theorem rlGet_rlSet_ne (s : RateLimitStore) (key key2 : String) (v exp t2 : Nat)
    (h : key2 ≠ key) :
    rlGet (rlSet s key v exp) t2 key2 = rlGet s t2 key2 := by
  unfold rlGet rlSet
  rw [List.find?_cons_of_neg _ (by simp [Ne.symm h]), find?_key_filter_ne _ _ _ h]

/-! ## Lemmas: the rate limiter -/

theorem rlAttempt_bound (limit window : Nat) (ip : String) (s : RateLimitStore)
    (t : Nat) (hs : ∀ u key, rlGet s u key ≤ limit) :
    ∀ u key, rlGet (rlAttempt limit window ip s t).2 u key ≤ limit := by
  intro u key
  unfold rlAttempt
  by_cases hlim : isRateLimited limit s t ip = true
  · rw [if_pos hlim]; exact hs u key
  · rw [if_neg hlim]
    unfold recordRequest
    have hlt : rlGet s t (rateLimitKey ip) < limit := by
      unfold isRateLimited at hlim
      simpa using hlim
    by_cases hk : key = rateLimitKey ip
    · subst hk
      rw [rlGet_rlSet_self]
      split <;> omega
    · rw [rlGet_rlSet_ne _ _ _ _ _ _ hk]
      exact hs u key

theorem runAttempts_bound (limit window : Nat) (ip : String) (ts : List Nat) :
    ∀ s : RateLimitStore, (∀ u key, rlGet s u key ≤ limit) →
      ∀ u key, rlGet (runAttempts limit window ip s ts) u key ≤ limit := by
  induction ts with
  | nil => intro s hs; exact hs
  | cons t ts ih =>
    intro s hs
    exact ih _ (rlAttempt_bound limit window ip s t hs)

/-! ## Lemmas: history retention -/

theorem filterKey_filter (city ip : String) (p : WeatherQueryRow → Bool)
    (l : List WeatherQueryRow) :
    filterKey city ip (l.filter p) = (filterKey city ip l).filter p := by
  unfold filterKey
  rw [List.filter_filter, List.filter_filter]
  apply List.filter_congr
  intro a _
  exact Bool.and_comm _ _

theorem orderByRecency_sorted (l : List WeatherQueryRow) :
    List.Sorted RecencyOrder (orderByRecency l) :=
  List.sorted_insertionSort RecencyOrder l

theorem orderByRecency_perm (l : List WeatherQueryRow) :
    (orderByRecency l).Perm l :=
  List.perm_insertionSort RecencyOrder l

theorem orderByRecency_eq_self (l : List WeatherQueryRow)
    (h : List.Sorted RecencyOrder l) : orderByRecency l = l :=
  h.insertionSort_eq

/-- After `cleanup_old_queries`, the rows for the key are a permutation of
the first `limit` rows of the recency-ordered key rows (hence at most
`limit` remain and they are the most recent ones), provided primary keys
are unique. -/
theorem cleanup_perm (tbl : HistoryTable) (city ip : String) (limit : Nat)
    (hnd : (tbl.rows.map (fun q => q.id)).Nodup) :
    (filterKey city ip (cleanupOldQueries tbl city ip limit).rows).Perm
      ((orderByRecency (filterKey city ip tbl.rows)).take limit) := by
  have hndF : ((filterKey city ip tbl.rows).map (fun q => q.id)).Nodup :=
    hnd.sublist ((List.filter_sublist tbl.rows).map _)
  have hpermS : (orderByRecency (filterKey city ip tbl.rows)).Perm
      (filterKey city ip tbl.rows) := orderByRecency_perm _
  have hndS : ((orderByRecency (filterKey city ip tbl.rows)).map
      (fun q => q.id)).Nodup :=
    ((hpermS.map (fun q => q.id)).nodup_iff).mpr hndF
  simp only [cleanupOldQueries]
  split
  case isTrue hlen =>
    rw [filterKey_filter]
    set S := orderByRecency (filterKey city ip tbl.rows) with hS
    set oldIds := (S.drop limit).map (fun q => q.id) with hOld
    have hsplit : S.take limit ++ S.drop limit = S := List.take_append_drop _ _
    have hnd2 : ((S.take limit).map (fun q => q.id)).Nodup
        ∧ ((S.drop limit).map (fun q => q.id)).Nodup
        ∧ ((S.take limit).map (fun q => q.id)).Disjoint
            ((S.drop limit).map (fun q => q.id)) := by
      rw [← List.nodup_append]
      rw [← List.map_append, hsplit]
      exact hndS
    have h1 : (S.take limit).filter (fun q => !(oldIds.contains q.id))
        = S.take limit := by
      apply List.filter_eq_self.mpr
      intro a ha
      have haid : a.id ∈ (S.take limit).map (fun q => q.id) :=
        List.mem_map_of_mem _ ha
      have : a.id ∉ oldIds := hnd2.2.2 haid
      simpa using this
    have h2 : (S.drop limit).filter (fun q => !(oldIds.contains q.id)) = [] := by
      apply List.filter_eq_nil_iff.mpr
      intro a ha
      have haid : a.id ∈ oldIds := List.mem_map_of_mem _ ha
      simp [haid]
    have hfinal : S.filter (fun q => !(oldIds.contains q.id)) = S.take limit := by
      conv_lhs => rw [← hsplit]
      rw [List.filter_append, h1, h2, List.append_nil]
    rw [← hfinal]
    exact (hpermS.filter _).symm
  case isFalse hlen =>
    push_neg at hlen
    rw [List.take_of_length_le hlen]
    exact hpermS.symm

/-- After cleanup, at most `limit` rows remain for the key. -/
theorem cleanup_length (tbl : HistoryTable) (city ip : String) (limit : Nat)
    (hnd : (tbl.rows.map (fun q => q.id)).Nodup) :
    (filterKey city ip (cleanupOldQueries tbl city ip limit).rows).length
      ≤ limit := by
  rw [(cleanup_perm tbl city ip limit hnd).length_eq, List.length_take]
  exact min_le_left _ _

/-! ## Lemmas: the fetch scenario -/

theorem descIds_length (n : Nat) : ∀ k, (descIds k n).length = n := by
  induction n with
  | zero => intro k; rfl
  | succ n ih => intro k; simp [descIds, ih]

theorem descIds_mem_le (n : Nat) : ∀ k j, j ∈ descIds k n → j ≤ k := by
  induction n with
  | zero => intro k j h; cases h
  | succ n ih =>
    intro k j h
    rcases List.mem_cons.mp h with rfl | h2
    · exact Nat.le_refl j
    · exact Nat.le_trans (ih (k - 1) j h2) (Nat.sub_le k 1)

theorem descIds_mem_ge (n : Nat) : ∀ k j, j ∈ descIds k n → k + 1 ≤ j + n := by
  induction n with
  | zero => intro k j h; cases h
  | succ n ih =>
    intro k j h
    rcases List.mem_cons.mp h with rfl | h2
    · omega
    · have := ih (k - 1) j h2
      omega

theorem descIds_append (n : Nat) : ∀ k, descIds k (n + 1) = descIds k n ++ [k - n] := by
  induction n with
  | zero => intro k; rfl
  | succ n ih =>
    intro k
    show k :: descIds (k - 1) (n + 1) = (k :: descIds (k - 1) n) ++ [k - (n + 1)]
    rw [ih (k - 1), List.cons_append]
    have : k - 1 - n = k - (n + 1) := by omega
    rw [this]

theorem scenarioRow_order (city ip : String) (i j : Nat) (h : j ≤ i) :
    RecencyOrder (scenarioRow city ip i) (scenarioRow city ip j) := by
  unfold RecencyOrder scenarioRow
  simp only
  omega

theorem scenario_sorted (city ip : String) (n : Nat) :
    ∀ k, List.Sorted RecencyOrder ((descIds k n).map (scenarioRow city ip)) := by
  induction n with
  | zero => intro k; exact List.sorted_nil
  | succ n ih =>
    intro k
    show List.Sorted RecencyOrder
      (scenarioRow city ip k :: (descIds (k - 1) n).map (scenarioRow city ip))
    rw [List.sorted_cons]
    refine ⟨?_, ih (k - 1)⟩
    intro b hb
    rcases List.mem_map.mp hb with ⟨j, hj, rfl⟩
    exact scenarioRow_order city ip k j
      (Nat.le_trans (descIds_mem_le n (k - 1) j hj) (Nat.sub_le k 1))

theorem scenario_filterKey (city ip : String) (l : List Nat) :
    filterKey (normalizeCity city) ip (l.map (scenarioRow city ip))
      = l.map (scenarioRow city ip) := by
  apply List.filter_eq_self.mpr
  intro a ha
  rcases List.mem_map.mp ha with ⟨j, _, rfl⟩
  simp [scenarioRow]

theorem cacheGet_single_expired (key : String) (e : CacheEntry) (t : Nat)
    (h : e.expiresAt ≤ t) : cacheGet [(key, e)] t key = none := by
  unfold cacheGet
  rw [List.find?_cons_of_pos _ (by simp)]
  show (if t < e.expiresAt then some e else none) = none
  rw [if_neg (by omega)]

theorem cacheSet_single (key : String) (e : CacheEntry) (t : Nat)
    (d : WeatherData) (ttl : Nat) :
    cacheSet [(key, e)] t key d ttl = [(key, ⟨d, t, t + ttl⟩)] := by
  unfold cacheSet
  simp

/-- One cache-miss step of the scenario run, in closed form. -/
theorem execute_miss_step (city ip : String) (t : Nat) (st : SystemState)
    (hmiss : cacheGet st.cache t (cacheKeyOf (normalizeCity city)) = none) :
    executeGetWeather scenarioProvider noFailures t city ip st
      = { result := .ok { data := mockWeatherData (normalizeCity city),
                          cachedAt := t, cached := false, timestamp := t },
          state := { cache := cacheSet st.cache t (cacheKeyOf (normalizeCity city))
                       (mockWeatherData (normalizeCity city)) 60,
                     history := cleanupOldQueries
                       (saveQuery st.history t (normalizeCity city) ip
                         (mockWeatherData (normalizeCity city)))
                       (normalizeCity city) ip 10 },
          providerCalled := true } := by
  simp [executeGetWeather, getCachedWeather, hmiss, scenarioProvider,
    cacheWeatherWrite, saveToHistory, noFailures, ONE_MINUTE]

/-- One history step of the scenario run: appending row `k + 1` and trimming
to 10 keeps the `min (k+1) 10` newest rows. -/
theorem scenario_history_step (city ip : String) (k : Nat) :
    cleanupOldQueries
        (saveQuery ⟨(descIds k (min k 10)).map (scenarioRow city ip), k + 1⟩
          (61 * k) (normalizeCity city) ip
          (mockWeatherData (normalizeCity city)))
        (normalizeCity city) ip 10
      = ⟨(descIds (k + 1) (min (k + 1) 10)).map (scenarioRow city ip),
          k + 2⟩ := by
  have hsave : saveQuery ⟨(descIds k (min k 10)).map (scenarioRow city ip), k + 1⟩
        (61 * k) (normalizeCity city) ip (mockWeatherData (normalizeCity city))
      = ⟨(descIds (k + 1) (min k 10 + 1)).map (scenarioRow city ip), k + 2⟩ := rfl
  rw [hsave]
  simp only [cleanupOldQueries, scenario_filterKey]
  rw [orderByRecency_eq_self _ (scenario_sorted city ip (min k 10 + 1) (k + 1))]
  rw [List.length_map, descIds_length]
  by_cases hk : k < 10
  · rw [if_neg (by omega)]
    have hmin1 : min k 10 = k := by omega
    have hmin2 : min (k + 1) 10 = k + 1 := by omega
    rw [hmin1, hmin2]
  · rw [if_pos (by omega)]
    have hmin1 : min k 10 = 10 := by omega
    have hmin2 : min (k + 1) 10 = 10 := by omega
    rw [hmin1, hmin2]
    have hk9 : k + 1 - 10 = k - 9 := by omega
    have hsplit : descIds (k + 1) 11 = descIds (k + 1) 10 ++ [k - 9] := by
      rw [descIds_append 10 (k + 1), hk9]
    have hlenA : ((descIds (k + 1) 10).map (scenarioRow city ip)).length = 10 := by
      rw [List.length_map, descIds_length]
    rw [show (10 : Nat) + 1 = 11 from rfl, hsplit, List.map_append,
      List.drop_left' hlenA]
    have hids : (([k - 9].map (scenarioRow city ip)).map (fun q => q.id))
        = [k - 9] := rfl
    rw [hids, List.filter_append]
    have hA : ((descIds (k + 1) 10).map (scenarioRow city ip)).filter
        (fun q => !(([k - 9] : List Nat).contains q.id))
        = (descIds (k + 1) 10).map (scenarioRow city ip) := by
      apply List.filter_eq_self.mpr
      intro a ha
      rcases List.mem_map.mp ha with ⟨j, hj, rfl⟩
      have hge := descIds_mem_ge 10 (k + 1) j hj
      have hne : (scenarioRow city ip j).id ≠ k - 9 := by
        show j ≠ k - 9
        omega
      simp [hne]
    have hB : (([k - 9] : List Nat).map (scenarioRow city ip)).filter
        (fun q => !(([k - 9] : List Nat).contains q.id)) = [] := by
      simp [scenarioRow]
    rw [hA, hB, List.append_nil]

/-- Closed form of the scenario state after `k` fetches: the cache holds the
snapshot written by the latest fetch, and the history holds the
`min k 10` newest rows, newest first. -/
theorem runFetches_state (city ip : String) : ∀ k : Nat,
    runFetches city ip k
      = { cache :=
            if k = 0 then []
            else [(cacheKeyOf (normalizeCity city),
              ⟨mockWeatherData (normalizeCity city), 61 * (k - 1),
                61 * (k - 1) + 60⟩)],
          history := ⟨(descIds k (min k 10)).map (scenarioRow city ip),
            k + 1⟩ } := by
  intro k
  induction k with
  | zero => rfl
  | succ k ih =>
    have hstep : runFetches city ip (k + 1)
        = (executeGetWeather scenarioProvider noFailures (61 * k) city ip
            (runFetches city ip k)).state := rfl
    rw [hstep, ih]
    have hmiss : cacheGet
        (if k = 0 then ([] : CacheStore)
          else [(cacheKeyOf (normalizeCity city),
            ⟨mockWeatherData (normalizeCity city), 61 * (k - 1),
              61 * (k - 1) + 60⟩)])
        (61 * k) (cacheKeyOf (normalizeCity city)) = none := by
      by_cases hk : k = 0
      · rw [if_pos hk]; rfl
      · rw [if_neg hk]
        apply cacheGet_single_expired
        show 61 * (k - 1) + 60 ≤ 61 * k
        omega
    rw [execute_miss_step city ip (61 * k) _ hmiss]
    show (⟨_, _⟩ : SystemState) = ⟨_, _⟩
    congr 1
    · by_cases hk : k = 0
      · subst hk
        rw [if_pos rfl, if_neg (by omega)]
        rfl
      · rw [if_neg hk, cacheSet_single, if_neg (by omega)]
        rfl
    · exact scenario_history_step city ip k

/-! ## Claim theorems -/

/-- C9: city-name normalization is case- and whitespace-insensitive — the
inputs `"são paulo"`, `" São Paulo "` and `"SÃO PAULO"` all normalize to the
same canonical form `"São Paulo"`, hence resolve to the same cache key and
the same history key (history rows are keyed by the normalized city), and
normalization (strip then title-case) is idempotent on every string. -/
theorem claim_C9_city_normalization :
    (normalizeCity "são paulo" = "São Paulo"
      ∧ normalizeCity " São Paulo " = "São Paulo"
      ∧ normalizeCity "SÃO PAULO" = "São Paulo")
    ∧ (cacheKeyOf (normalizeCity "são paulo")
        = cacheKeyOf (normalizeCity " São Paulo ")
      ∧ cacheKeyOf (normalizeCity " São Paulo ")
        = cacheKeyOf (normalizeCity "SÃO PAULO"))
    ∧ (∀ s : String, normalizeCity (normalizeCity s) = normalizeCity s) :=
  ⟨⟨by decide, by decide, by decide⟩, ⟨by decide, by decide⟩, normalizeCity_idem⟩

/-- C4 counterexample: the claim says the limit is *clamped* to `[1, 50]`,
but for input `100` clamping would give `50` while the code falls back to
the default `10`; out-of-range values are replaced by the default, not
clamped to the nearest bound. -/
theorem claim_C4_counterexample :
    effectiveLimit (.value 100) = 10 ∧ specClampLimit (.value 100) = 50
      ∧ effectiveLimit (.value 100) ≠ specClampLimit (.value 100) := by
  decide

/-- C4 (amended): the effective GetHistory limit always lies in `[1, 50]`;
it is the input value when that value lies in `[1, 50]` and the default 10
otherwise (missing, unparsable, or out of range — out-of-range values are
not clamped to the nearest bound); the result contains the ordered records,
the total count, and the echoed city and limit. -/
theorem claim_C4_limit_handling :
    (∀ p : LimitParam, 1 ≤ effectiveLimit p ∧ effectiveLimit p ≤ 50)
    ∧ (effectiveLimit .missing = 10 ∧ effectiveLimit .invalid = 10)
    ∧ (∀ n : Int, 1 ≤ n → n ≤ 50 → effectiveLimit (.value n) = n)
    ∧ (∀ n : Int, n < 1 ∨ 50 < n → effectiveLimit (.value n) = 10)
    ∧ (∀ tbl city ip limit,
        (executeGetHistory tbl city ip limit).queries
            = getHistoryRows tbl (normalizeCity city) ip limit
          ∧ (executeGetHistory tbl city ip limit).total
            = (executeGetHistory tbl city ip limit).queries.length
          ∧ (executeGetHistory tbl city ip limit).city = normalizeCity city
          ∧ (executeGetHistory tbl city ip limit).limit = limit) := by
  refine ⟨?_, ⟨rfl, rfl⟩, ?_, ?_, ?_⟩
  · intro p
    cases p with
    | missing => constructor <;> norm_num [effectiveLimit]
    | invalid => constructor <;> norm_num [effectiveLimit]
    | value n =>
      unfold effectiveLimit
      split <;> constructor <;> omega
  · intro n h1 h2
    show (if n < 1 ∨ 50 < n then (10 : Int) else n) = n
    rw [if_neg (by omega)]
  · intro n h
    show (if n < 1 ∨ 50 < n then (10 : Int) else n) = 10
    rw [if_pos (by omega)]
  · intro tbl city ip limit
    exact ⟨rfl, rfl, rfl, rfl⟩

/-- C4 witness: the amended limit handling evaluated at concrete inputs. -/
theorem claim_C4_witness :
    (1 : Int) ≤ 37 ∧ (37 : Int) ≤ 50 ∧ effectiveLimit (.value 37) = 37
      ∧ effectiveLimit (.value 0) = 10 :=
  ⟨by decide, by decide,
    claim_C4_limit_handling.2.2.1 37 (by decide) (by decide),
    claim_C4_limit_handling.2.2.2.1 0 (Or.inl (by decide))⟩

/-- C10: rate limiting applies only to the weather-query endpoint
`/api/v1/weather/`; a request to the history endpoint, the
cache-invalidation endpoint, the health endpoint or the metrics endpoint is
forwarded without being rejected and without any rate-limit counter being
read or modified. -/
theorem claim_C10_rate_limit_scope (limit window : Nat)
    (testing bddEnabled : Bool) (ip path : String) (t : Nat)
    (s : RateLimitStore)
    (hpath : path = "/api/v1/weather/history/" ∨ path = "/api/v1/weather/cache/"
      ∨ path = "/health/" ∨ path = "/metrics") :
    middlewareCall limit window testing bddEnabled path ip t s
      = (.passedThrough, s) := by
  rcases hpath with rfl | rfl | rfl | rfl
  · rw [middlewareCall, if_neg (by decide)]
    by_cases ht : testing = true ∧ ¬ bddEnabled = true
    · rw [if_pos ht]
    · rw [if_neg ht, if_pos (by decide)]
  · rw [middlewareCall, if_neg (by decide)]
    by_cases ht : testing = true ∧ ¬ bddEnabled = true
    · rw [if_pos ht]
    · rw [if_neg ht, if_pos (by decide)]
  · rw [middlewareCall, if_pos (by decide)]
  · rw [middlewareCall, if_pos (by decide)]

/-- C10 witness: the scope theorem evaluated at the four concrete paths. -/
theorem claim_C10_witness :
    middlewareCall 5 60 false false "/api/v1/weather/history/" "1.2.3.4" 0 []
        = (.passedThrough, [])
      ∧ middlewareCall 5 60 false false "/health/" "1.2.3.4" 0 []
        = (.passedThrough, []) :=
  ⟨claim_C10_rate_limit_scope 5 60 false false "1.2.3.4" _ 0 []
      (Or.inl rfl),
    claim_C10_rate_limit_scope 5 60 false false "1.2.3.4" _ 0 []
      (Or.inr (Or.inr (Or.inl rfl)))⟩

/-- C2 counterexample: with limit 5 and window 60, two admitted attempts at
times 0 and 30 leave the counter at 2 at time 60, even though 60 seconds
have elapsed since the first request that started the window — because
`record_request` re-`set`s the counter with a fresh TTL on every admitted
request, the window does not reset 60 seconds after the first request. -/
theorem claim_C2_counterexample :
    (rlAttempt 5 60 "1.2.3.4" [] 0).1 = true
      ∧ (rlAttempt 5 60 "1.2.3.4" (rlAttempt 5 60 "1.2.3.4" [] 0).2 30).1 = true
      ∧ rlGet (runAttempts 5 60 "1.2.3.4" [] [0, 30]) 60
          (rateLimitKey "1.2.3.4") = 2
      ∧ (2 : Nat) ≠ 0 := by
  decide

/-- C2 (amended): the per-identity counter never exceeds the configured
limit; an attempt is rejected exactly when the counter has already reached
the limit at the time of the attempt; and the counter expires (reads 0)
`window_seconds` after the most recent *admitted* request — each admitted
request restarts the expiry clock — rather than `window_seconds` after the
first request of the window. -/
theorem claim_C2_rate_limit_window :
    (∀ limit window : Nat, ∀ ip : String, ∀ ts : List Nat, ∀ u : Nat,
      ∀ key : String,
        rlGet (runAttempts limit window ip [] ts) u key ≤ limit)
    ∧ (∀ limit window : Nat, ∀ ip : String, ∀ s : RateLimitStore, ∀ t : Nat,
        ((rlAttempt limit window ip s t).1 = false
          ↔ limit ≤ rlGet s t (rateLimitKey ip)))
    ∧ (∀ limit window : Nat, ∀ ip : String, ∀ s : RateLimitStore, ∀ t : Nat,
        (rlAttempt limit window ip s t).1 = true →
        ∀ t2 : Nat, t + window ≤ t2 →
          rlGet (rlAttempt limit window ip s t).2 t2 (rateLimitKey ip) = 0) := by
  refine ⟨?_, ?_, ?_⟩
  · intro limit window ip ts u key
    exact runAttempts_bound limit window ip ts [] (by intro u2 k2; simp [rlGet]) u key
  · intro limit window ip s t
    unfold rlAttempt
    by_cases hlim : isRateLimited limit s t ip = true
    · rw [if_pos hlim]
      unfold isRateLimited at hlim
      simpa using hlim
    · rw [if_neg hlim]
      unfold isRateLimited at hlim
      simp only [decide_eq_true_eq] at hlim
      simpa using hlim
  · intro limit window ip s t hadm t2 ht2
    unfold rlAttempt at hadm ⊢
    by_cases hlim : isRateLimited limit s t ip = true
    · rw [if_pos hlim] at hadm
      cases hadm
    · rw [if_neg hlim]
      unfold recordRequest
      rw [rlGet_rlSet_self, if_neg (by omega)]

/-- C2 witness: the amended window behavior at concrete inputs — after an
admitted attempt at time 0 with window 60, the counter reads 0 at time 60;
and a store at the limit rejects. -/
theorem claim_C2_witness :
    rlGet (runAttempts 3 60 "ip" [] [0, 0, 0, 0]) 7 "rate_limit:ip" ≤ 3
      ∧ ((rlAttempt 5 60 "1.2.3.4" [(rateLimitKey "1.2.3.4", 5, 99)] 0).1 = false
          ↔ 5 ≤ rlGet [(rateLimitKey "1.2.3.4", 5, 99)] 0
              (rateLimitKey "1.2.3.4"))
      ∧ rlGet (rlAttempt 5 60 "1.2.3.4" [] 0).2 60 (rateLimitKey "1.2.3.4") = 0 :=
  ⟨claim_C2_rate_limit_window.1 3 60 "ip" [0, 0, 0, 0] 7 "rate_limit:ip",
    claim_C2_rate_limit_window.2.1 5 60 "1.2.3.4" [(rateLimitKey "1.2.3.4", 5, 99)] 0,
    claim_C2_rate_limit_window.2.2 5 60 "1.2.3.4" [] 0 (by decide) 60 (by decide)⟩

/-- C5 counterexample: a 200 response whose `weather` array is empty.
`_parse_weather_data` evaluates `data["weather"][0]` and raises
`IndexError`, which its `except KeyError` does not catch, so the fetch
fails outside the six domain kinds (in particular it is not the parse-error
kind); `GetWeatherUseCase.execute`'s `except Exception` then wraps it into
the distinct generic internal-error family, again none of the six kinds. -/
theorem claim_C5_counterexample :
    owmGetWeather "k" (.response 200
        ⟨some "X", some "BR", some 25, some [], some 60, some 1013, none⟩)
      = .error .indexError
    ∧ FetchFailure.indexError ≠ .domainError .parseError
    ∧ executeMissOwm "k" (.response 200
        ⟨some "X", some "BR", some 25, some [], some 60, some 1013, none⟩)
      = .error .internalError
    ∧ CallerError.internalError ≠ .domainError .parseError := by
  decide

/-- C5 (amended): the provider's fetch either returns a normalized snapshot
or fails with one of the six domain error kinds — missing API key →
NotConfigured, upstream 404 → NotFound, 401 → Unauthorized, other non-2xx →
UpstreamError(code), network failure → ConnectionError, missing required
body field → ParseError — EXCEPT that a 200 body whose `weather` array is
empty raises an uncaught IndexError outside the six kinds, which the
GetWeather use case wraps into the generic internal-error family; domain
error kinds propagate to the caller unchanged (both through the use case's
exception dispatch and through `execute` on a cache miss). -/
theorem claim_C5_error_kinds :
    (∀ outcome : HttpOutcome,
        owmGetWeather "" outcome = .error (.domainError .notConfigured))
    ∧ (∀ key : String, ∀ body : OwmPayload, key ≠ "" →
        owmGetWeather key (.response 404 body)
          = .error (.domainError .notFound))
    ∧ (∀ key : String, ∀ body : OwmPayload, key ≠ "" →
        owmGetWeather key (.response 401 body)
          = .error (.domainError .unauthorized))
    ∧ (∀ key : String, ∀ body : OwmPayload, ∀ status : Nat, key ≠ "" →
        status ≠ 200 → status ≠ 404 → status ≠ 401 →
        owmGetWeather key (.response status body)
          = .error (.domainError (.upstreamError status)))
    ∧ (∀ key : String, key ≠ "" →
        owmGetWeather key .requestException
          = .error (.domainError .connectionError))
    ∧ (∀ key : String, ∀ body : OwmPayload, key ≠ "" →
        (body.name = none ∨ body.sysCountry = none ∨ body.mainTemp = none
          ∨ body.weather = none
          ∨ (∃ rest, body.weather = some (none :: rest))
          ∨ body.mainHumidity = none ∨ body.mainPressure = none) →
        body.weather ≠ some [] →
        owmGetWeather key (.response 200 body)
          = .error (.domainError .parseError))
    ∧ (∀ key : String, ∀ body : OwmPayload, key ≠ "" →
        body.name.isSome → body.sysCountry.isSome → body.mainTemp.isSome →
        body.weather = some [] →
        owmGetWeather key (.response 200 body) = .error .indexError
          ∧ executeMissOwm key (.response 200 body) = .error .internalError)
    ∧ (∀ key name country : String, ∀ temp : Int, ∀ desc : String,
        ∀ rest : List (Option String), ∀ hum pres : Int, ∀ wind : Option Int,
        key ≠ "" →
        owmGetWeather key (.response 200 ⟨some name, some country, some temp,
            some (some desc :: rest), some hum, some pres, wind⟩)
          = .ok { city := name, country := country, temperature := temp,
                  description := titleString desc, humidity := some hum,
                  pressure := some pres, windSpeed := some (wind.getD 0),
                  provider := "openweathermap" })
    ∧ (∀ apiKey : String, ∀ outcome : HttpOutcome, ∀ e : ErrorKind,
        owmGetWeather apiKey outcome = .error (.domainError e) →
        executeMissOwm apiKey outcome = .error (.domainError e))
    ∧ (∀ provider : String → Except ErrorKind WeatherData, ∀ fm : FailureModel,
        ∀ t : Nat, ∀ city ip : String, ∀ st : SystemState, ∀ e : ErrorKind,
        getCachedWeather fm.cacheReadFails st.cache t (normalizeCity city)
            = none →
        provider (normalizeCity city) = .error e →
        (executeGetWeather provider fm t city ip st).result = .error e) := by
  refine ⟨?_, ?_, ?_, ?_, ?_, ?_, ?_, ?_, ?_, ?_⟩
  · intro outcome
    unfold owmGetWeather
    rw [if_pos rfl]
  · intro key body hkey
    simp [owmGetWeather, hkey]
  · intro key body hkey
    simp [owmGetWeather, hkey]
  · intro key body status hkey h200 h404 h401
    simp [owmGetWeather, hkey, h200, h404, h401]
  · intro key hkey
    simp [owmGetWeather, hkey]
  · intro key body hkey hmissing hne
    obtain ⟨n1, n2, n3, w, n5, n6, n7⟩ := body
    simp only at hmissing hne
    cases n1 <;> cases n2 <;> cases n3 <;> cases n5 <;> cases n6 <;>
      rcases w with _ | (_ | ⟨(_ | d), rest⟩) <;>
      simp_all [owmGetWeather, parseWeatherData]
  · intro key body hkey h1 h2 h3 hw
    obtain ⟨n1, n2, n3, w, n5, n6, n7⟩ := body
    simp only at h1 h2 h3 hw
    subst hw
    rcases Option.isSome_iff_exists.mp h1 with ⟨name, rfl⟩
    rcases Option.isSome_iff_exists.mp h2 with ⟨country, rfl⟩
    rcases Option.isSome_iff_exists.mp h3 with ⟨temp, rfl⟩
    constructor
    · simp [owmGetWeather, parseWeatherData, hkey]
    · simp [executeMissOwm, owmGetWeather, parseWeatherData, hkey]
  · intro key name country temp desc rest hum pres wind hkey
    simp [owmGetWeather, parseWeatherData, hkey]
  · intro apiKey outcome e h
    simp [executeMissOwm, h]
  · intro provider fm t city ip st e hmiss hprov
    simp [executeGetWeather, hmiss, hprov]

/-- C5 witness: the mapping, the empty-weather-array internal error, and
the propagation paths evaluated at concrete inputs. -/
theorem claim_C5_witness :
    owmGetWeather "k" (.response 404 ⟨none, none, none, none, none, none, none⟩)
        = .error (.domainError .notFound)
      ∧ owmGetWeather "k"
          (.response 503 ⟨none, none, none, none, none, none, none⟩)
        = .error (.domainError (.upstreamError 503))
      ∧ owmGetWeather "k" (.response 200 ⟨none, some "BR", some 25,
          some [some "sol"], some 60, some 1013, none⟩)
        = .error (.domainError .parseError)
      ∧ (owmGetWeather "k" (.response 200 ⟨some "X", some "BR", some 25,
          some [], some 60, some 1013, none⟩) = .error .indexError
        ∧ executeMissOwm "k" (.response 200 ⟨some "X", some "BR", some 25,
          some [], some 60, some 1013, none⟩) = .error .internalError)
      ∧ executeMissOwm "k" .requestException
        = .error (.domainError .connectionError)
      ∧ (executeGetWeather (fun _ => .error .notFound) noFailures 0 "Lisboa"
          "1.2.3.4" ⟨[], HistoryTable.empty⟩).result = .error .notFound :=
  ⟨claim_C5_error_kinds.2.1 "k" _ (by decide),
    claim_C5_error_kinds.2.2.2.1 "k" _ 503 (by decide) (by decide) (by decide)
      (by decide),
    claim_C5_error_kinds.2.2.2.2.2.1 "k" _ (by decide) (Or.inl rfl)
      (by decide),
    claim_C5_error_kinds.2.2.2.2.2.2.1 "k" _ (by decide) (by decide)
      (by decide) (by decide) rfl,
    claim_C5_error_kinds.2.2.2.2.2.2.2.2.1 "k" .requestException
      .connectionError (claim_C5_error_kinds.2.2.2.2.1 "k" (by decide)),
    claim_C5_error_kinds.2.2.2.2.2.2.2.2.2 (fun _ => .error .notFound)
      noFailures 0 "Lisboa" "1.2.3.4" ⟨[], HistoryTable.empty⟩ .notFound
      (by decide) rfl⟩

/-- C6: a cache-store failure never fails a GetWeather request — a failing
cache read makes the call proceed exactly as a cache miss (the provider is
called; fresh data or the provider's error is returned), and a failing
cache write after a successful fetch still returns the freshly fetched
data, leaving the cache unchanged. -/
theorem claim_C6_cache_failures :
    (∀ provider : String → Except ErrorKind WeatherData, ∀ t : Nat,
      ∀ city ip : String, ∀ st : SystemState,
        (executeGetWeather provider ⟨true, false, false, false⟩ t city ip
            st).providerCalled = true
        ∧ (∀ d, provider (normalizeCity city) = .ok d →
            (executeGetWeather provider ⟨true, false, false, false⟩ t city ip
                st).result
              = .ok { data := d, cachedAt := t, cached := false, timestamp := t })
        ∧ (∀ e, provider (normalizeCity city) = .error e →
            (executeGetWeather provider ⟨true, false, false, false⟩ t city ip
                st).result = .error e))
    ∧ (∀ provider : String → Except ErrorKind WeatherData, ∀ t : Nat,
      ∀ city ip : String, ∀ st : SystemState, ∀ d : WeatherData,
        cacheGet st.cache t (cacheKeyOf (normalizeCity city)) = none →
        provider (normalizeCity city) = .ok d →
        (executeGetWeather provider ⟨false, true, false, false⟩ t city ip
              st).result
            = .ok { data := d, cachedAt := t, cached := false, timestamp := t }
          ∧ (executeGetWeather provider ⟨false, true, false, false⟩ t city ip
              st).state.cache = st.cache) := by
  constructor
  · intro provider t city ip st
    refine ⟨?_, ?_, ?_⟩
    · match hp : provider (normalizeCity city) with
      | .ok d => simp [executeGetWeather, getCachedWeather, hp]
      | .error e => simp [executeGetWeather, getCachedWeather, hp]
    · intro d hp
      simp [executeGetWeather, getCachedWeather, hp]
    · intro e hp
      simp [executeGetWeather, getCachedWeather, hp]
  · intro provider t city ip st d hmiss hp
    constructor
    · simp [executeGetWeather, getCachedWeather, hmiss, hp]
    · simp [executeGetWeather, getCachedWeather, hmiss, hp, cacheWeatherWrite]

/-- C6 witness: a run with a failing cache read and a run with a failing
cache write both still return the freshly fetched data. -/
theorem claim_C6_witness :
    (executeGetWeather scenarioProvider ⟨true, false, false, false⟩ 0 "Lisboa"
        "1.2.3.4" ⟨[], HistoryTable.empty⟩).result
      = .ok { data := mockWeatherData (normalizeCity "Lisboa"), cachedAt := 0,
              cached := false, timestamp := 0 }
    ∧ (executeGetWeather scenarioProvider ⟨false, true, false, false⟩ 0 "Lisboa"
        "1.2.3.4" ⟨[], HistoryTable.empty⟩).result
      = .ok { data := mockWeatherData (normalizeCity "Lisboa"), cachedAt := 0,
              cached := false, timestamp := 0 } :=
  ⟨(claim_C6_cache_failures.1 scenarioProvider 0 "Lisboa" "1.2.3.4"
      ⟨[], HistoryTable.empty⟩).2.1 _ rfl,
    (claim_C6_cache_failures.2 scenarioProvider 0 "Lisboa" "1.2.3.4"
      ⟨[], HistoryTable.empty⟩ _ (by decide) rfl).1⟩

/-- C7: a cache hit calls no provider and leaves every store — in
particular the history — unchanged (no append, no trim); conversely, any
call that changes the history did call the provider, i.e. history records
are created only on a cache miss. -/
theorem claim_C7_hit_frame :
    (∀ provider : String → Except ErrorKind WeatherData, ∀ fm : FailureModel,
      ∀ t : Nat, ∀ city ip : String, ∀ st : SystemState, ∀ entry : CacheEntry,
        getCachedWeather fm.cacheReadFails st.cache t (normalizeCity city)
            = some entry →
        executeGetWeather provider fm t city ip st
          = { result := .ok { data := entry.data, cachedAt := entry.cachedAt,
                              cached := true, timestamp := t },
              state := st, providerCalled := false })
    ∧ (∀ provider : String → Except ErrorKind WeatherData, ∀ fm : FailureModel,
      ∀ t : Nat, ∀ city ip : String, ∀ st : SystemState,
        (executeGetWeather provider fm t city ip st).state.history
            ≠ st.history →
        (executeGetWeather provider fm t city ip st).providerCalled = true) := by
  constructor
  · intro provider fm t city ip st entry hhit
    simp [executeGetWeather, hhit]
  · intro provider fm t city ip st hne
    match hg : getCachedWeather fm.cacheReadFails st.cache t (normalizeCity city) with
    | some entry =>
      exfalso
      apply hne
      simp [executeGetWeather, hg]
    | none =>
      match hp : provider (normalizeCity city) with
      | .error e =>
        exfalso
        apply hne
        simp [executeGetWeather, hg, hp]
      | .ok d =>
        simp [executeGetWeather, hg, hp]

/-- C7 witness: a concrete cache hit returns the stored entry without
touching the state, and a concrete history-changing run called the
provider. -/
theorem claim_C7_witness :
    executeGetWeather scenarioProvider noFailures 10 "Lisboa" "1.2.3.4"
        ⟨[(cacheKeyOf "Lisboa", ⟨mockWeatherData "Lisboa", 0, 60⟩)],
          HistoryTable.empty⟩
      = { result := .ok { data := mockWeatherData "Lisboa", cachedAt := 0,
                          cached := true, timestamp := 10 },
          state := ⟨[(cacheKeyOf "Lisboa", ⟨mockWeatherData "Lisboa", 0, 60⟩)],
            HistoryTable.empty⟩,
          providerCalled := false }
    ∧ (executeGetWeather scenarioProvider noFailures 0 "Lisboa" "1.2.3.4"
        ⟨[], HistoryTable.empty⟩).providerCalled = true :=
  ⟨claim_C7_hit_frame.1 scenarioProvider noFailures 10 "Lisboa" "1.2.3.4"
      _ ⟨mockWeatherData "Lisboa", 0, 60⟩ (by decide),
    claim_C7_hit_frame.2 scenarioProvider noFailures 0 "Lisboa" "1.2.3.4"
      ⟨[], HistoryTable.empty⟩ (by decide)⟩

/-- C8: when the provider fetch succeeds, a history-store failure during
append or trim is swallowed — for every failure model (in particular ones
where `save_query` or `cleanup_old_queries` raise) the call still returns
the freshly fetched weather data. -/
theorem claim_C8_history_failure_swallowed
    (provider : String → Except ErrorKind WeatherData) (fm : FailureModel)
    (t : Nat) (city ip : String) (st : SystemState) (d : WeatherData)
    (hmiss : getCachedWeather fm.cacheReadFails st.cache t (normalizeCity city)
      = none)
    (hprov : provider (normalizeCity city) = .ok d) :
    (executeGetWeather provider fm t city ip st).result
      = .ok { data := d, cachedAt := t, cached := false, timestamp := t } := by
  simp [executeGetWeather, hmiss, hprov]

/-- C8 witness: with both the append and the trim failing, the call still
returns the fetched data. -/
theorem claim_C8_witness :
    (executeGetWeather scenarioProvider ⟨false, false, true, true⟩ 0 "Lisboa"
        "1.2.3.4" ⟨[], HistoryTable.empty⟩).result
      = .ok { data := mockWeatherData (normalizeCity "Lisboa"), cachedAt := 0,
              cached := false, timestamp := 0 } :=
  claim_C8_history_failure_swallowed scenarioProvider ⟨false, false, true, true⟩
    0 "Lisboa" "1.2.3.4" ⟨[], HistoryTable.empty⟩ _ (by decide) rfl

/-- C1: for any city, a GetWeather call that misses the cache followed —
within the TTL window, with no intervening invalidation — by a second call
for the same city yields `cached=false` then `cached=true`, and both
results carry the identical weather record `d` (all of city, country,
temperature, description, humidity, pressure, wind_speed, provider),
differing only in the `cached`/`timestamp` stamps. -/
theorem claim_C1_cache_aside
    (provider : String → Except ErrorKind WeatherData)
    (t1 t2 : Nat) (city ip1 ip2 : String) (st : SystemState) (d : WeatherData)
    (hmiss : cacheGet st.cache t1 (cacheKeyOf (normalizeCity city)) = none)
    (hprov : provider (normalizeCity city) = .ok d)
    (hwin : t2 < t1 + ONE_MINUTE) :
    (executeGetWeather provider noFailures t1 city ip1 st).result
        = .ok { data := d, cachedAt := t1, cached := false, timestamp := t1 }
      ∧ (executeGetWeather provider noFailures t2 city ip2
            (executeGetWeather provider noFailures t1 city ip1 st).state).result
        = .ok { data := d, cachedAt := t1, cached := true, timestamp := t2 }
      ∧ (executeGetWeather provider noFailures t2 city ip2
            (executeGetWeather provider noFailures t1 city ip1 st).state
          ).providerCalled = false := by
  have hwin2 : t2 < t1 + 60 := by
    unfold ONE_MINUTE at hwin
    exact hwin
  refine ⟨?_, ?_, ?_⟩
  · simp [executeGetWeather, getCachedWeather, hmiss, hprov]
  · simp [executeGetWeather, getCachedWeather, hmiss, hprov, cacheWeatherWrite,
      noFailures, ONE_MINUTE, cacheGet_cacheSet_self, hwin2]
  · simp [executeGetWeather, getCachedWeather, hmiss, hprov, cacheWeatherWrite,
      noFailures, ONE_MINUTE, cacheGet_cacheSet_self, hwin2]

/-- C1 witness: the cache-aside round trip at a concrete city and times 0
and 30. -/
theorem claim_C1_witness :
    (executeGetWeather scenarioProvider noFailures 0 "São Paulo" "1.2.3.4"
        ⟨[], HistoryTable.empty⟩).result
      = .ok { data := mockWeatherData (normalizeCity "São Paulo"), cachedAt := 0,
              cached := false, timestamp := 0 }
    ∧ (executeGetWeather scenarioProvider noFailures 30 "São Paulo" "5.6.7.8"
        (executeGetWeather scenarioProvider noFailures 0 "São Paulo" "1.2.3.4"
          ⟨[], HistoryTable.empty⟩).state).result
      = .ok { data := mockWeatherData (normalizeCity "São Paulo"), cachedAt := 0,
              cached := true, timestamp := 30 } :=
  ⟨(claim_C1_cache_aside scenarioProvider 0 30 "São Paulo" "1.2.3.4" "5.6.7.8"
      ⟨[], HistoryTable.empty⟩ _ (by decide) rfl (by decide)).1,
    (claim_C1_cache_aside scenarioProvider 0 30 "São Paulo" "1.2.3.4" "5.6.7.8"
      ⟨[], HistoryTable.empty⟩ _ (by decide) rfl (by decide)).2.1⟩

/-- C3: after any history cleanup for a (city, clientIdentity) key — given
unique primary keys — at most `limit` rows remain for the key and they are
exactly the first `limit` rows of the recency order (newest `created_at`
first, ties broken by higher id, which `orderByRecency` realizes as a
sorted order); consequently, after `k > 10` cache-miss GetWeather fetches
for the same (city, ip), GetHistory with limit 50 returns exactly 10
records — the rows with ids `k, k-1, ..., k-9`, i.e. the 10 most recently
created, newest first. -/
theorem claim_C3_history_cap :
    (∀ tbl : HistoryTable, ∀ city ip : String, ∀ limit : Nat,
        (tbl.rows.map (fun q => q.id)).Nodup →
        (filterKey city ip (cleanupOldQueries tbl city ip limit).rows).length
            ≤ limit
          ∧ (filterKey city ip (cleanupOldQueries tbl city ip limit).rows).Perm
            ((orderByRecency (filterKey city ip tbl.rows)).take limit))
    ∧ (∀ l : List WeatherQueryRow,
        List.Sorted RecencyOrder (orderByRecency l))
    ∧ (∀ city ip : String, ∀ k : Nat, 10 < k →
        executeGetHistory (runFetches city ip k).history city ip 50
          = { city := normalizeCity city,
              queries := (descIds k 10).map (scenarioRow city ip),
              total := 10, limit := 50 }) := by
  refine ⟨?_, orderByRecency_sorted, ?_⟩
  · intro tbl city ip limit hnd
    exact ⟨cleanup_length tbl city ip limit hnd,
      cleanup_perm tbl city ip limit hnd⟩
  · intro city ip k hk
    rw [runFetches_state city ip k]
    have hmin : min k 10 = 10 := by omega
    rw [hmin]
    simp only [executeGetHistory, getHistoryRows]
    rw [scenario_filterKey,
      orderByRecency_eq_self _ (scenario_sorted city ip 10 k),
      List.take_of_length_le (by rw [List.length_map, descIds_length]; omega),
      List.length_map, descIds_length]

/-- C3 witness: the cleanup bound and ordering at a concrete 3-row table
with limit 2, and the 11-fetch scenario returning exactly the rows with
ids 11 down to 2. -/
theorem claim_C3_witness :
    (((⟨[⟨1, "A", "i", 0, "", none, none, none, "", 5⟩,
        ⟨2, "A", "i", 0, "", none, none, none, "", 7⟩,
        ⟨3, "A", "i", 0, "", none, none, none, "", 6⟩], 4⟩ :
          HistoryTable).rows.map (fun q => q.id)).Nodup
      ∧ (10 : Nat) < 11)
    ∧ (filterKey "A" "i" (cleanupOldQueries
        ⟨[⟨1, "A", "i", 0, "", none, none, none, "", 5⟩,
          ⟨2, "A", "i", 0, "", none, none, none, "", 7⟩,
          ⟨3, "A", "i", 0, "", none, none, none, "", 6⟩], 4⟩ "A" "i" 2).rows).length
        ≤ 2
    ∧ executeGetHistory (runFetches "Lisboa" "9.9.9.9" 11).history
        "Lisboa" "9.9.9.9" 50
      = { city := normalizeCity "Lisboa",
          queries := (descIds 11 10).map (scenarioRow "Lisboa" "9.9.9.9"),
          total := 10, limit := 50 } :=
  ⟨⟨by decide, by decide⟩,
    (claim_C3_history_cap.1
      ⟨[⟨1, "A", "i", 0, "", none, none, none, "", 5⟩,
        ⟨2, "A", "i", 0, "", none, none, none, "", 7⟩,
        ⟨3, "A", "i", 0, "", none, none, none, "", 6⟩], 4⟩ "A" "i" 2
      (by decide)).1,
    claim_C3_history_cap.2.2 "Lisboa" "9.9.9.9" 11 (by decide)⟩

end WeatherService
